import Mathlib

/-!
Verification of the Neewer BLE light protocol codec and device session
(`custom_components/neewer/neewer_device.py` and
`custom_components/neewer/scene_effects.py`).

Modelling conventions:
* Python byte sequences (`bytearray`, `list[int]`) are `List Int`; byte
  truncation (`& 0xFF`) is `Int.emod _ 256`, which agrees with Python's
  `&`/`%` semantics (non-negative result for positive modulus).
* Strings (device addresses) are `List Char`.
* The BLE transport of a connected session is an oracle
  `t : List Int → Bool` applied to full frames: `true` means the GATT
  write succeeded, `false` means it raised a command error
  (`NeewerCommandError`).  Each operation returns the final outcome
  (`Except Unit DeviceState`) together with the list of frames whose
  write was attempted, in order.
* Notification observers are `List Int → Except Unit Unit`; an `error`
  result models a callback that raises (the handler catches it).
* `round()` on the Kelvin conversion is Python's round-half-to-even,
  modelled over exact rationals (`pyRound`); the source computes the
  quotient in floating point.
-/

namespace Neewer

/-! ## Constants (`const.py`) -/

/-- `PREFIX = 0x78` from `const.py` (renamed to avoid keyword clash). -/
def PREFIX_BYTE : Int := 0x78

/-- `MIN_NOTIFICATION_LENGTH = 4` from `const.py`. -/
def MIN_NOTIFICATION_LENGTH : Nat := 4

/-- `NOTIFICATION_CHANNEL_TAG = 0x01` from `const.py`. -/
def NOTIFICATION_CHANNEL_TAG : Int := 0x01

/-! ## Data model -/

/-- Mutable session state of `NeewerDevice` (`_is_on`, `_brightness`, ...). -/
structure DeviceState where
  is_on : Bool
  brightness : Int
  cct : Int
  hue : Int
  saturation : Int
  effect : Int
  gm : Int
deriving Repr, DecidableEq

/-- State right after `__init__`: everything zero / off. -/
def initialState : DeviceState :=
  { is_on := false, brightness := 0, cct := 0, hue := 0, saturation := 0
    effect := 0, gm := 0 }

/-- Capability flags consulted by the session (a `dict` in the source;
only the keys the session reads are modelled). -/
structure Capabilities where
  supportRGB : Bool := false
  supportCCTGM : Bool := false
  support17FX : Bool := false
  newPowerLightCommand : Bool := false
  newRGBLightCommand : Bool := false
  cctRange : Option (Int × Int) := none
deriving Repr

/-- The `gm` property: `self._gm - 50` (device units 0..100 exposed as
-50..+50). -/
def gm_property (st : DeviceState) : Int := st.gm - 50

/-- A capability record with every new-format flag enabled, for concrete
instantiations. -/
def capsAllOn : Capabilities :=
  { supportRGB := true, supportCCTGM := true, support17FX := true
    newPowerLightCommand := true, newRGBLightCommand := true, cctRange := none }

/-! ## Checksum and frame building -/

/-- `_calculate_checksum`: `sum(data) & 0xFF`. -/
def calculate_checksum (data : List Int) : Int := Int.emod data.sum 256

/-- The frame `_send_command` writes: `[PREFIX, *data]` plus the checksum
over those bytes. -/
def mkFrame (data : List Int) : List Int :=
  let full := PREFIX_BYTE :: data
  full ++ [calculate_checksum full]

/-! ## Notification handler (`_notification_handler`) -/

/-- One registered notification callback; `Except.error` models a raised
exception (caught and logged by the handler). -/
abbrev NotifyCallback := List Int → Except Unit Unit

/-- `_notification_handler`, as a pure function from the current state,
the registered callbacks and the notification bytes to the new state and
the per-callback invocation results (in registration order).  The
checksum-mismatch branch `return`s before the callback loop; every other
path falls through to it. -/
def notificationHandler (st : DeviceState) (cbs : List NotifyCallback)
    (data : List Int) : DeviceState × List (Except Unit Unit) :=
  if (MIN_NOTIFICATION_LENGTH ≤ data.length ∧ data.getD 0 0 = PREFIX_BYTE) ∧
      calculate_checksum data.dropLast ≠ (data.getLast?).getD 0 then
    (st, [])
  else
    let st' :=
      if (MIN_NOTIFICATION_LENGTH ≤ data.length ∧ data.getD 0 0 = PREFIX_BYTE) ∧
          (data.getD 1 0 = NOTIFICATION_CHANNEL_TAG ∧ data.length = 5) then
        { st with effect := max 1 (min 17 (data.getD 3 0 + 1)) }
      else st
    (st', cbs.map fun cb => cb data)

/-- The malformed-notification classes named by the spec: shorter than 4
bytes, wrong first byte, or (well-prefixed and long enough) trailing byte
differing from the sum of the preceding bytes mod 256. -/
def malformedFrame (data : List Int) : Prop :=
  data.length < MIN_NOTIFICATION_LENGTH ∨
  data.getD 0 0 ≠ PREFIX_BYTE ∨
  ((MIN_NOTIFICATION_LENGTH ≤ data.length ∧ data.getD 0 0 = PREFIX_BYTE) ∧
    calculate_checksum data.dropLast ≠ (data.getLast?).getD 0)

instance (data : List Int) : Decidable (malformedFrame data) := by
  unfold malformedFrame; infer_instance

/-! ## MAC resolution (`_get_mac_bytes`) -/

/-- One hexadecimal digit, as accepted by `bytes.fromhex`. -/
def hexVal (c : Char) : Option Nat :=
  if '0' ≤ c ∧ c ≤ '9' then some (c.toNat - '0'.toNat)
  else if 'a' ≤ c ∧ c ≤ 'f' then some (c.toNat - 'a'.toNat + 10)
  else if 'A' ≤ c ∧ c ≤ 'F' then some (c.toNat - 'A'.toNat + 10)
  else none

/-- `bytes.fromhex`: pairs of hex digits, spaces allowed between pairs;
an odd digit or a non-hex character fails (Python raises `ValueError`). -/
def fromhex : List Char → Option (List Nat)
  | [] => some []
  | ' ' :: rest => fromhex rest
  | c1 :: c2 :: rest => do
      let h1 ← hexVal c1
      let h2 ← hexVal c2
      let t ← fromhex rest
      some ((16 * h1 + h2) :: t)
  | [_] => none

/-- `self._mac_address or self._ble_device.address` (Python `or`: an
empty discovered string falls back to the transport address). -/
def effective_address (mac_address : Option (List Char))
    (ble_address : List Char) : List Char :=
  match mac_address with
  | some m => if m.isEmpty then ble_address else m
  | none => ble_address

/-- `_get_mac_bytes`: requires a colon somewhere in the (non-empty)
address, strips every colon, and hex-decodes the remainder; any
`ValueError` yields `None`.  No 6-byte length check is performed. -/
def get_mac_bytes (mac_address : Option (List Char))
    (ble_address : List Char) : Option (List Int) :=
  let mac := effective_address mac_address ble_address
  if !mac.isEmpty && mac.contains ':' then
    (fromhex (mac.filter (fun c => c != ':'))).map (fun l => l.map (fun n => (n : Int)))
  else
    none

/-- Python truthiness of `mac_bytes : list[int] | None` as used in the
guards `if <capability> and mac_bytes:`. -/
def macTruthy : Option (List Int) → Bool
  | some m => !m.isEmpty
  | none => false

/-! ## Kelvin → device CCT conversion (`set_cct`) -/

/-- Python `round`: round half to even, over exact rationals. -/
def pyRound (q : ℚ) : ℤ :=
  let n := ⌊q⌋
  let frac := q - n
  if frac < 1 / 2 then n
  else if 1 / 2 < frac then n + 1
  else if n % 2 = 0 then n else n + 1

/-- `device_cct` in `set_cct`:
`round(min + (kelvin - 2700) * (max - min) / (6500 - 2700))` clamped to
`[min, max]`.  The source computes the quotient in floating point;
modelled exactly over `ℚ` with Python's rounding. -/
def device_cct_of (min_cct max_cct cct_kelvin : Int) : Int :=
  let r := pyRound ((min_cct : ℚ) +
    ((cct_kelvin : ℚ) - 2700) * ((max_cct : ℚ) - (min_cct : ℚ)) / (6500 - 2700))
  max min_cct (min max_cct r)

/-! ## Setter operations

Each setter takes the capability record, the discovered MAC string, the
transport address, the transport write oracle and the current state; it
returns the outcome plus the attempted frames in order. -/

/-- `set_power`. -/
def set_power (caps : Capabilities) (ma : Option (List Char))
    (addr : List Char) (t : List Int → Bool) (st : DeviceState)
    (onFlag : Bool) : Except Unit DeviceState × List (List Int) :=
  let mac_bytes := get_mac_bytes ma addr
  let onB : Int := if onFlag then 0x01 else 0x02
  let legacy := mkFrame [0x81, 0x01, onB]
  if caps.newPowerLightCommand && macTruthy mac_bytes then
    let fr := mkFrame ([0x8D, 0x08] ++ mac_bytes.getD [] ++ [0x81, onB])
    if t fr then (.ok { st with is_on := onFlag }, [fr])
    else
      -- NeewerCommandError caught: fall through to the old format
      if t legacy then (.ok { st with is_on := onFlag }, [fr, legacy])
      else (.error (), [fr, legacy])
  else
    if t legacy then (.ok { st with is_on := onFlag }, [legacy])
    else (.error (), [legacy])

/-- `set_cct`. -/
def set_cct (caps : Capabilities) (ma : Option (List Char))
    (addr : List Char) (t : List Int → Bool) (st : DeviceState)
    (cct_kelvin : Int) (brightness? : Option Int) (gm : Int) :
    Except Unit DeviceState × List (List Int) :=
  let brightness := max 0 (min 100 (brightness?.getD st.brightness))
  let gm_value := max (-50) (min 50 gm) + 50
  let cr := caps.cctRange.getD (32, 56)
  let device_cct := device_cct_of cr.1 cr.2 cct_kelvin
  let mac_bytes := get_mac_bytes ma addr
  let fb := mkFrame [0x87, 0x02, brightness, device_cct]
  if caps.supportCCTGM && macTruthy mac_bytes then
    let fr := mkFrame ([0x90, 0x0C] ++ mac_bytes.getD [] ++
      [0x87, brightness, device_cct, gm_value, 0x04])
    if t fr then
      (.ok { st with brightness := brightness, cct := device_cct, gm := gm_value },
       [fr])
    else
      -- NeewerCommandError caught: fall back to basic CCT (GM not updated)
      if t fb then
        (.ok { st with brightness := brightness, cct := device_cct }, [fr, fb])
      else (.error (), [fr, fb])
  else
    if t fb then
      (.ok { st with brightness := brightness, cct := device_cct }, [fb])
    else (.error (), [fb])

/-- `set_hsi`. -/
def set_hsi (caps : Capabilities) (ma : Option (List Char))
    (addr : List Char) (t : List Int → Bool) (st : DeviceState)
    (hue saturation : Int) (brightness? : Option Int) :
    Except Unit DeviceState × List (List Int) :=
  let brightness := max 0 (min 100 (brightness?.getD st.brightness))
  let hue := max 0 (min 360 hue)
  let saturation := max 0 (min 100 saturation)
  let hue_low := Int.emod hue 256
  let hue_high := Int.emod (Int.ediv hue 256) 256
  let mac_bytes := get_mac_bytes ma addr
  let fb := mkFrame [0x86, 0x04, hue_low, hue_high, saturation, brightness]
  if caps.newRGBLightCommand && macTruthy mac_bytes then
    let fr := mkFrame ([0x8F, 0x0C] ++ mac_bytes.getD [] ++
      [0x86, hue_low, hue_high, saturation, brightness, 0x00])
    if t fr then
      (.ok { st with hue := hue, saturation := saturation, brightness := brightness },
       [fr])
    else
      if t fb then
        (.ok { st with hue := hue, saturation := saturation, brightness := brightness },
         [fr, fb])
      else (.error (), [fr, fb])
  else
    if t fb then
      (.ok { st with hue := hue, saturation := saturation, brightness := brightness },
       [fb])
    else (.error (), [fb])

/-! ## Scene effects (`scene_effects.py`) -/

def EFFECT_LIGHTNING : Nat := 0x01
def EFFECT_PAPARAZZI : Nat := 0x02
def EFFECT_DEFECTIVE_BULB : Nat := 0x03
def EFFECT_EXPLOSION : Nat := 0x04
def EFFECT_WELDING : Nat := 0x05
def EFFECT_CCT_FLASH : Nat := 0x06
def EFFECT_HUE_FLASH : Nat := 0x07
def EFFECT_CCT_PULSE : Nat := 0x08
def EFFECT_HUE_PULSE : Nat := 0x09
def EFFECT_COP_CAR : Nat := 0x0A
def EFFECT_CANDLELIGHT : Nat := 0x0B
def EFFECT_HUE_LOOP : Nat := 0x0C
def EFFECT_CCT_LOOP : Nat := 0x0D
def EFFECT_INT_LOOP : Nat := 0x0E
def EFFECT_TV_SCREEN : Nat := 0x0F
def EFFECT_FIREWORK : Nat := 0x10
def EFFECT_PARTY : Nat := 0x11

/-- One entry of `ADVANCED_SCENE_PARAMS`. -/
structure SceneSpec where
  name : String
  params : List String
  defaults : List (String × Int)
deriving Repr

/-- The `ADVANCED_SCENE_PARAMS` table. -/
def ADVANCED_SCENE_PARAMS : List (Nat × SceneSpec) :=
  [ (EFFECT_LIGHTNING,
     { name := "Lightning", params := ["brightness", "cct", "gm", "speed"]
       defaults := [("brightness", 100), ("cct", 50), ("gm", 50), ("speed", 5)] }),
    (EFFECT_PAPARAZZI,
     { name := "Paparazzi", params := ["brightness", "cct", "gm", "speed"]
       defaults := [("brightness", 100), ("cct", 50), ("gm", 50), ("speed", 5)] }),
    (EFFECT_DEFECTIVE_BULB,
     { name := "Defective Bulb", params := ["brightness", "cct", "gm", "speed"]
       defaults := [("brightness", 100), ("cct", 50), ("gm", 50), ("speed", 5)] }),
    (EFFECT_EXPLOSION,
     { name := "Explosion", params := ["brightness", "cct", "gm", "speed", "sparks"]
       defaults := [("brightness", 100), ("cct", 50), ("gm", 50), ("speed", 5),
                    ("sparks", 5)] }),
    (EFFECT_WELDING,
     { name := "Welding"
       params := ["brightness_low", "brightness_high", "cct", "gm", "speed"]
       defaults := [("brightness_low", 20), ("brightness_high", 100), ("cct", 50),
                    ("gm", 50), ("speed", 5)] }),
    (EFFECT_CCT_FLASH,
     { name := "CCT Flash", params := ["brightness", "cct", "gm", "speed"]
       defaults := [("brightness", 100), ("cct", 50), ("gm", 50), ("speed", 5)] }),
    (EFFECT_HUE_FLASH,
     { name := "HUE Flash", params := ["brightness", "hue", "saturation", "speed"]
       defaults := [("brightness", 100), ("hue", 180), ("saturation", 100),
                    ("speed", 5)] }),
    (EFFECT_CCT_PULSE,
     { name := "CCT Pulse", params := ["brightness", "cct", "gm", "speed"]
       defaults := [("brightness", 100), ("cct", 50), ("gm", 50), ("speed", 5)] }),
    (EFFECT_HUE_PULSE,
     { name := "HUE Pulse", params := ["brightness", "hue", "saturation", "speed"]
       defaults := [("brightness", 100), ("hue", 180), ("saturation", 100),
                    ("speed", 5)] }),
    (EFFECT_COP_CAR,
     { name := "Cop Car", params := ["brightness", "color_mode", "speed"]
       defaults := [("brightness", 100), ("color_mode", 2), ("speed", 5)] }),
    (EFFECT_CANDLELIGHT,
     { name := "Candlelight"
       params := ["brightness_low", "brightness_high", "cct", "gm", "speed", "sparks"]
       defaults := [("brightness_low", 20), ("brightness_high", 80), ("cct", 27),
                    ("gm", 50), ("speed", 3), ("sparks", 3)] }),
    (EFFECT_HUE_LOOP,
     { name := "HUE Loop", params := ["brightness", "hue_low", "hue_high", "speed"]
       defaults := [("brightness", 100), ("hue_low", 0), ("hue_high", 360),
                    ("speed", 5)] }),
    (EFFECT_CCT_LOOP,
     { name := "CCT Loop", params := ["brightness", "cct_low", "cct_high", "speed"]
       defaults := [("brightness", 100), ("cct_low", 27), ("cct_high", 65),
                    ("speed", 5)] }),
    (EFFECT_INT_LOOP,
     { name := "INT Loop"
       params := ["brightness_low", "brightness_high", "hue", "speed"]
       defaults := [("brightness_low", 10), ("brightness_high", 100), ("hue", 180),
                    ("speed", 5)] }),
    (EFFECT_TV_SCREEN,
     { name := "TV Screen", params := ["brightness", "cct", "gm", "speed"]
       defaults := [("brightness", 100), ("cct", 50), ("gm", 50), ("speed", 8)] }),
    (EFFECT_FIREWORK,
     { name := "Firework", params := ["brightness", "color_mode", "speed", "sparks"]
       defaults := [("brightness", 100), ("color_mode", 1), ("speed", 5),
                    ("sparks", 7)] }),
    (EFFECT_PARTY,
     { name := "Party", params := ["brightness", "color_mode", "speed"]
       defaults := [("brightness", 100), ("color_mode", 1), ("speed", 7)] }) ]

/-- Table lookup (`effect_id in ADVANCED_SCENE_PARAMS`). -/
def sceneSpec (effect_id : Nat) : Option SceneSpec :=
  ADVANCED_SCENE_PARAMS.lookup effect_id

/-- `build_advanced_scene_command`.  `params` is the keyword-argument
dictionary.  `none` models the `ValueError` raised for an unknown effect
id.  The value environment is `defaults` updated by `params`, with
`brightness` force-set from the positional argument. -/
def build_advanced_scene_command (effect_id : Nat) (mac_bytes : List Int)
    (brightness : Int) (params : String → Option Int) : Option (List Int) :=
  match sceneSpec effect_id with
  | none => none
  | some spec =>
    let v : String → Int := fun k =>
      if k = "brightness" then brightness
      else match params k with
        | some x => x
        | none => (spec.defaults.lookup k).getD 0
    some (
      if effect_id ∈ [EFFECT_LIGHTNING, EFFECT_PAPARAZZI, EFFECT_DEFECTIVE_BULB,
          EFFECT_CCT_FLASH, EFFECT_CCT_PULSE, EFFECT_TV_SCREEN] then
        0x91 :: 0x0E :: mac_bytes ++
          [0x8B, (effect_id : Int), v "brightness", v "cct", v "gm", v "speed", 0x00]
      else if effect_id ∈ [EFFECT_HUE_FLASH, EFFECT_HUE_PULSE] then
        0x91 :: 0x0F :: mac_bytes ++
          [0x8B, (effect_id : Int), v "brightness",
           Int.emod (v "hue") 256, Int.emod (Int.ediv (v "hue") 256) 256,
           v "saturation", v "speed", 0x00]
      else if effect_id = EFFECT_EXPLOSION then
        0x91 :: 0x0F :: mac_bytes ++
          [0x8B, (effect_id : Int), v "brightness", v "cct", v "gm", v "speed",
           v "sparks", 0x00]
      else if effect_id = EFFECT_WELDING then
        0x91 :: 0x0F :: mac_bytes ++
          [0x8B, (effect_id : Int), v "brightness_low", v "brightness_high",
           v "cct", v "gm", v "speed", 0x00]
      else if effect_id = EFFECT_CANDLELIGHT then
        0x91 :: 0x10 :: mac_bytes ++
          [0x8B, (effect_id : Int), v "brightness_low", v "brightness_high",
           v "cct", v "gm", v "speed", v "sparks", 0x00]
      else if effect_id ∈ [EFFECT_COP_CAR, EFFECT_PARTY] then
        0x91 :: 0x0E :: mac_bytes ++
          [0x8B, (effect_id : Int), v "brightness", v "color_mode", v "speed",
           0x00, 0x00]
      else if effect_id = EFFECT_HUE_LOOP then
        0x91 :: 0x11 :: mac_bytes ++
          [0x8B, (effect_id : Int), v "brightness",
           Int.emod (v "hue_low") 256, Int.emod (Int.ediv (v "hue_low") 256) 256,
           Int.emod (v "hue_high") 256, Int.emod (Int.ediv (v "hue_high") 256) 256,
           v "speed", 0x00]
      else if effect_id = EFFECT_CCT_LOOP then
        0x91 :: 0x0E :: mac_bytes ++
          [0x8B, (effect_id : Int), v "brightness", v "cct_low", v "cct_high",
           v "speed", 0x00]
      else if effect_id = EFFECT_INT_LOOP then
        0x91 :: 0x0F :: mac_bytes ++
          [0x8B, (effect_id : Int), v "brightness_low", v "brightness_high",
           Int.emod (v "hue") 256, Int.emod (Int.ediv (v "hue") 256) 256,
           v "speed", 0x00]
      else if effect_id = EFFECT_FIREWORK then
        0x91 :: 0x0F :: mac_bytes ++
          [0x8B, (effect_id : Int), v "brightness", v "color_mode", v "speed",
           v "sparks", 0x00, 0x00]
      else
        [0x91])

/-- The per-parameter clamping chain of `validate_scene_parameters`. -/
def clampParamValue (param_name : String) (value : Int) : Int :=
  if param_name ∈ ["brightness", "brightness_low", "brightness_high"] then
    max 0 (min 100 value)
  else if param_name ∈ ["cct", "cct_low", "cct_high"] then
    max 27 (min 65 value)
  else if param_name = "gm" then
    max 0 (min 100 value)
  else if param_name ∈ ["hue", "hue_low", "hue_high"] then
    max 0 (min 360 value)
  else if param_name = "saturation" then
    max 0 (min 100 value)
  else if param_name ∈ ["speed", "sparks"] then
    max 1 (min 10 value)
  else if param_name = "color_mode" then
    max 0 (min 4 value)
  else
    value

/-- `validate_scene_parameters`: walk the effect's declared parameter
names in order, keep those present in the input, clamped; unknown effect
ids yield the empty dictionary. -/
def validate_scene_parameters (effect_id : Nat)
    (params : String → Option Int) : List (String × Int) :=
  match sceneSpec effect_id with
  | none => []
  | some spec =>
    spec.params.filterMap fun n => (params n).map fun v => (n, clampParamValue n v)

/-- `set_effect`. -/
def set_effect (caps : Capabilities) (ma : Option (List Char))
    (addr : List Char) (t : List Int → Bool) (st : DeviceState)
    (effect_id : Nat) (brightness? : Option Int)
    (params : String → Option Int) :
    Except Unit DeviceState × List (List Int) :=
  let brightness := max 0 (min 100 (brightness?.getD st.brightness))
  let basicFrame := mkFrame [0x88, 0x02, brightness, (effect_id : Int)]
  let basic : Except Unit DeviceState × List (List Int) :=
    if t basicFrame then
      (.ok { st with effect := (effect_id : Int), brightness := brightness },
       [basicFrame])
    else (.error (), [basicFrame])
  if caps.support17FX then
    let mac_bytes := get_mac_bytes ma addr
    if macTruthy mac_bytes then
      let validated := validate_scene_parameters effect_id params
      match build_advanced_scene_command effect_id (mac_bytes.getD [])
          brightness (fun n => validated.lookup n) with
      | some cmd =>
        let fr := mkFrame cmd
        -- a transport failure here is NeewerCommandError, which the
        -- `except (ValueError, KeyError)` clause does not catch
        if t fr then
          (.ok { st with effect := (effect_id : Int), brightness := brightness },
           [fr])
        else (.error (), [fr])
      | none => basic   -- ValueError: fall through to the basic command
    else basic
  else basic

/-! ## Claims about the notification handler (C1, C2, C10) -/

/-- C1 (amended): every malformed notification leaves the device state
(in particular the `effect` field) unchanged and raises nothing, and the
next notification is processed exactly as if the malformed one had never
arrived; however, only the checksum-mismatch class is withheld from the
registered observers — too-short and bad-prefix frames are still passed
to every observer callback. -/
theorem malformed_notification_dropped (st : DeviceState)
    (cbs : List NotifyCallback) (data : List Int)
    (h : malformedFrame data) :
    (notificationHandler st cbs data).1 = st ∧
    ((notificationHandler st cbs data).2 =
      if MIN_NOTIFICATION_LENGTH ≤ data.length ∧ data.getD 0 0 = PREFIX_BYTE
      then [] else cbs.map fun cb => cb data) ∧
    (∀ d2, notificationHandler (notificationHandler st cbs data).1 cbs d2
        = notificationHandler st cbs d2) := by
  by_cases hc : MIN_NOTIFICATION_LENGTH ≤ data.length ∧ data.getD 0 0 = PREFIX_BYTE
  · have hm : calculate_checksum data.dropLast ≠ (data.getLast?).getD 0 := by
      rcases h with h | h | h
      · exact absurd hc.1 (by omega)
      · exact absurd hc.2 h
      · exact h.2
    have h1 : notificationHandler st cbs data = (st, []) := by
      unfold notificationHandler
      rw [if_pos ⟨hc, hm⟩]
    refine ⟨by rw [h1], ?_, fun d2 => by rw [h1]⟩
    rw [h1, if_pos hc]
  · have h1 : notificationHandler st cbs data = (st, cbs.map fun cb => cb data) := by
      unfold notificationHandler
      rw [if_neg (fun hh => hc hh.1), if_neg (fun hh => hc hh.1)]
    refine ⟨by rw [h1], ?_, fun d2 => by rw [h1]⟩
    rw [h1, if_neg hc]

/-- C1 witness: the bad-checksum frame `[0x78, 1, 1, 3, 99]` is
malformed; it leaves the state unchanged and is withheld from the
observers, and later frames are processed as before. -/
theorem malformed_notification_dropped_witness :
    (notificationHandler initialState [] [0x78, 1, 1, 3, 99]).1 = initialState ∧
    ((notificationHandler initialState [] [0x78, 1, 1, 3, 99]).2 =
      if MIN_NOTIFICATION_LENGTH ≤ ([0x78, 1, 1, 3, 99] : List Int).length ∧
          ([0x78, 1, 1, 3, 99] : List Int).getD 0 0 = PREFIX_BYTE
      then []
      else ([] : List NotifyCallback).map fun cb => cb [0x78, 1, 1, 3, 99]) ∧
    (∀ d2, notificationHandler
        (notificationHandler initialState [] [0x78, 1, 1, 3, 99]).1 [] d2
        = notificationHandler initialState [] d2) :=
  malformed_notification_dropped initialState [] [0x78, 1, 1, 3, 99] (by decide)

/-- C1 counterexample: the one-byte frame `[0x00]` is malformed (too
short), yet the notification handler still delivers it to a registered
observer — the invocation list is non-empty, refuting "the frame is not
delivered to registered notification observers" for this class. -/
theorem malformed_notification_reaches_observers_cex :
    malformedFrame [0] ∧
    (notificationHandler initialState [fun _ => Except.ok ()] [0]).2.length = 1 :=
  ⟨by decide, rfl⟩

/-- C2: a valid 5-byte channel notification `[0x78, 0x01, X, CH, cs]`
sets the session's effect to `clamp(CH + 1, 1, 17)`; for `CH` in 0..16
this is `CH + 1`, and no byte value can push it beyond 17. -/
theorem channel_notification_sets_effect (st : DeviceState)
    (cbs : List NotifyCallback) (data : List Int)
    (h5 : data.length = 5) (hp : data.getD 0 0 = PREFIX_BYTE)
    (ht : data.getD 1 0 = NOTIFICATION_CHANNEL_TAG)
    (hcs : calculate_checksum data.dropLast = (data.getLast?).getD 0) :
    (notificationHandler st cbs data).1.effect
        = max 1 (min 17 (data.getD 3 0 + 1)) ∧
    (notificationHandler st cbs data).1.effect ≤ 17 ∧
    (0 ≤ data.getD 3 0 → data.getD 3 0 ≤ 16 →
      (notificationHandler st cbs data).1.effect = data.getD 3 0 + 1) := by
  have hA : MIN_NOTIFICATION_LENGTH ≤ data.length ∧ data.getD 0 0 = PREFIX_BYTE := by
    refine ⟨?_, hp⟩
    rw [h5]; norm_num [MIN_NOTIFICATION_LENGTH]
  have h1 : (notificationHandler st cbs data).1
      = { st with effect := max 1 (min 17 (data.getD 3 0 + 1)) } := by
    unfold notificationHandler
    rw [if_neg (fun hh => hh.2 hcs)]
    show (if _ ∧ _ ∧ _ then _ else st) = _
    rw [if_pos ⟨hA, ht, h5⟩]
  rw [h1]
  refine ⟨rfl, ?_, fun hl hu => ?_⟩
  · show max 1 (min 17 (data.getD 3 0 + 1)) ≤ 17
    omega
  · show max 1 (min 17 (data.getD 3 0 + 1)) = data.getD 3 0 + 1
    omega

/-- C2 witness: the frame `[0x78, 0x01, 0x01, 0x03, 0x7D]` (checksum
`0x78+1+1+3 = 0x7D`) sets the effect to 4 = CH + 1 with CH = 3. -/
theorem channel_notification_sets_effect_witness :
    (notificationHandler initialState [] [0x78, 1, 1, 3, 0x7D]).1.effect
        = max 1 (min 17 (([0x78, 1, 1, 3, 0x7D] : List Int).getD 3 0 + 1)) ∧
    (notificationHandler initialState [] [0x78, 1, 1, 3, 0x7D]).1.effect ≤ 17 ∧
    (0 ≤ ([0x78, 1, 1, 3, 0x7D] : List Int).getD 3 0 →
      ([0x78, 1, 1, 3, 0x7D] : List Int).getD 3 0 ≤ 16 →
      (notificationHandler initialState [] [0x78, 1, 1, 3, 0x7D]).1.effect
          = ([0x78, 1, 1, 3, 0x7D] : List Int).getD 3 0 + 1) :=
  channel_notification_sets_effect initialState [] [0x78, 1, 1, 3, 0x7D]
    (by decide) (by decide) (by decide) (by decide)

/-- C10: every notification that reaches observer delivery (everything
except the checksum-mismatch early return) invokes each registered
callback exactly once, in registration order, with the raw bytes; a
callback that raises is caught, the remaining callbacks still run, and
nothing escapes the handler (it is a total function). -/
theorem observers_invoked_in_order (st : DeviceState)
    (cbs : List NotifyCallback) (data : List Int)
    (h : ¬ ((MIN_NOTIFICATION_LENGTH ≤ data.length ∧
          data.getD 0 0 = PREFIX_BYTE) ∧
        calculate_checksum data.dropLast ≠ (data.getLast?).getD 0)) :
    (notificationHandler st cbs data).2 = cbs.map (fun cb => cb data) ∧
    (notificationHandler st cbs data).2.length = cbs.length ∧
    ∀ i : Nat, (notificationHandler st cbs data).2[i]?
        = Option.map (fun cb => cb data) cbs[i]? := by
  have h1 : (notificationHandler st cbs data).2 = cbs.map fun cb => cb data := by
    unfold notificationHandler
    rw [if_neg h]
  exact ⟨h1, by rw [h1]; exact List.length_map _ _,
    fun i => by rw [h1]; exact List.getElem?_map _ _ _⟩

/-- C10 witness: with two observers of which the first raises, both are
invoked in order on the short frame `[0x01]`, and the handler returns
normally. -/
theorem observers_invoked_in_order_witness :
    (notificationHandler initialState
      [fun _ => Except.error (), fun _ => Except.ok ()] [1]).2
      = [Except.error (), Except.ok ()] := by
  have h := (observers_invoked_in_order initialState
    [fun _ => Except.error (), fun _ => Except.ok ()] [1] (by decide)).1
  simpa using h

/-! ## Claims about set_power and MAC resolution (C3, C4) -/

/-- C3: with `newPowerLightCommand` and a resolved (non-empty) MAC, a
transport that rejects the MAC-based power frame still leads to the
legacy frame being sent; on its success `is_on` equals the requested
value and exactly two writes were attempted.  When the MAC-based frame
is accepted, exactly one write is attempted. -/
theorem power_falls_back_to_legacy (caps : Capabilities)
    (ma : Option (List Char)) (addr : List Char) (t : List Int → Bool)
    (st : DeviceState) (onFlag : Bool) (mb : List Int)
    (hcap : caps.newPowerLightCommand = true)
    (hm : get_mac_bytes ma addr = some mb) (hne : mb ≠ []) :
    (t (mkFrame ([0x8D, 0x08] ++ mb ++ [0x81, if onFlag then 1 else 2])) = false →
      t (mkFrame [0x81, 0x01, if onFlag then 1 else 2]) = true →
      set_power caps ma addr t st onFlag =
        (.ok { st with is_on := onFlag },
         [mkFrame ([0x8D, 0x08] ++ mb ++ [0x81, if onFlag then 1 else 2]),
          mkFrame [0x81, 0x01, if onFlag then 1 else 2]])) ∧
    (t (mkFrame ([0x8D, 0x08] ++ mb ++ [0x81, if onFlag then 1 else 2])) = true →
      set_power caps ma addr t st onFlag =
        (.ok { st with is_on := onFlag },
         [mkFrame ([0x8D, 0x08] ++ mb ++ [0x81, if onFlag then 1 else 2])])) := by
  have htr2 : macTruthy (some mb) = true := by simpa [macTruthy] using hne
  constructor
  · intro h1 h2
    simp only [List.cons_append, List.nil_append] at h1
    simp [set_power, hcap, hm, htr2, h1, h2]
  · intro h1
    simp only [List.cons_append, List.nil_append] at h1
    simp [set_power, hcap, hm, htr2, h1]

/-- C3 witness: a transport that rejects every `0x8D`-tagged frame makes
`set_power` succeed through the legacy frame with two attempts. -/
theorem power_falls_back_to_legacy_witness :
    set_power { newPowerLightCommand := true }
      (some ("11:22:33:44:55:66".toList)) [] (fun f => f.getD 1 0 != 0x8D)
      initialState true =
      (.ok { initialState with is_on := true },
       [mkFrame ([0x8D, 0x08] ++ [0x11, 0x22, 0x33, 0x44, 0x55, 0x66] ++
          [0x81, if true then 1 else 2]),
        mkFrame [0x81, 0x01, if true then 1 else 2]]) :=
  (power_falls_back_to_legacy { newPowerLightCommand := true }
      (some ("11:22:33:44:55:66".toList)) [] (fun f => f.getD 1 0 != 0x8D)
      initialState true [0x11, 0x22, 0x33, 0x44, 0x55, 0x66]
      rfl (by decide) (by decide)).1 (by decide) (by decide)

/-- C4 (amended): `_get_mac_bytes` only requires the address to contain
a colon and, after deleting every colon, to be a valid hex string — it
does not enforce six bytes.  Whenever that parse fails (so resolution
yields `None`, e.g. for `"not-a-mac"`), every MAC-gated operation —
`set_power`, `set_cct`, `set_hsi`, `set_effect` — attempts exactly its
single legacy/fallback frame and never a MAC-based one. -/
theorem unresolvable_mac_forces_legacy (caps : Capabilities)
    (ma : Option (List Char)) (addr : List Char) (t : List Int → Bool)
    (st : DeviceState) (onFlag : Bool) (kelvin : Int) (br : Option Int)
    (g hue sat : Int) (eid : Nat) (params : String → Option Int)
    (h : get_mac_bytes ma addr = none) :
    (set_power caps ma addr t st onFlag).2
        = [mkFrame [0x81, 0x01, if onFlag then 1 else 2]] ∧
    (set_cct caps ma addr t st kelvin br g).2
        = [mkFrame [0x87, 0x02, max 0 (min 100 (br.getD st.brightness)),
            device_cct_of (caps.cctRange.getD (32, 56)).1
              (caps.cctRange.getD (32, 56)).2 kelvin]] ∧
    (set_hsi caps ma addr t st hue sat br).2
        = [mkFrame [0x86, 0x04, Int.emod (max 0 (min 360 hue)) 256,
            Int.emod (Int.ediv (max 0 (min 360 hue)) 256) 256,
            max 0 (min 100 sat), max 0 (min 100 (br.getD st.brightness))]] ∧
    (set_effect caps ma addr t st eid br params).2
        = [mkFrame [0x88, 0x02, max 0 (min 100 (br.getD st.brightness)),
            (eid : Int)]] := by
  have htr : macTruthy (get_mac_bytes ma addr) = false := by
    rw [h]; rfl
  refine ⟨?_, ?_, ?_, ?_⟩
  · by_cases h2 : t (mkFrame [0x81, 0x01, if onFlag then 1 else 2]) <;>
      simp [set_power, htr, h2]
  · by_cases h2 : t (mkFrame [0x87, 0x02, max 0 (min 100 (br.getD st.brightness)),
        device_cct_of (caps.cctRange.getD (32, 56)).1
          (caps.cctRange.getD (32, 56)).2 kelvin]) <;>
      simp [set_cct, htr, h2]
  · by_cases h2 : t (mkFrame [0x86, 0x04, Int.emod (max 0 (min 360 hue)) 256,
        Int.emod (Int.ediv (max 0 (min 360 hue)) 256) 256,
        max 0 (min 100 sat), max 0 (min 100 (br.getD st.brightness))]) <;>
      simp [set_hsi, htr, h2]
  · by_cases hfx : caps.support17FX <;>
      by_cases h2 : t (mkFrame [0x88, 0x02, max 0 (min 100 (br.getD st.brightness)),
          (eid : Int)]) <;>
      simp [set_effect, htr, hfx, h2]

/-- C4 witness: the address `"not-a-mac"` resolves to no MAC, and all
four MAC-gated operations attempt exactly their legacy frames. -/
theorem unresolvable_mac_forces_legacy_witness :
    (set_power capsAllOn
      (some ("not-a-mac".toList)) [] (fun _ => true) initialState true).2
        = [mkFrame [0x81, 0x01, if true then 1 else 2]] ∧
    (set_cct capsAllOn
      (some ("not-a-mac".toList)) [] (fun _ => true) initialState 4000 (some 80) 0).2
        = [mkFrame [0x87, 0x02, max 0 (min 100 ((some 80).getD initialState.brightness)),
            device_cct_of (capsAllOn.cctRange.getD (32, 56)).1
              (capsAllOn.cctRange.getD (32, 56)).2 4000]] ∧
    (set_hsi capsAllOn
      (some ("not-a-mac".toList)) [] (fun _ => true) initialState 200 50 (some 80)).2
        = [mkFrame [0x86, 0x04, Int.emod (max 0 (min 360 200)) 256,
            Int.emod (Int.ediv (max 0 (min 360 200)) 256) 256,
            max 0 (min 100 50), max 0 (min 100 ((some 80).getD initialState.brightness))]] ∧
    (set_effect capsAllOn
      (some ("not-a-mac".toList)) [] (fun _ => true) initialState 4 (some 80)
      (fun _ => none)).2
        = [mkFrame [0x88, 0x02, max 0 (min 100 ((some 80).getD initialState.brightness)),
            ((4 : Nat) : Int)]] :=
  unresolvable_mac_forces_legacy _ _ _ _ _ _ _ _ _ _ _ _ _ (by decide)

/-- C4 counterexample: the address `"AA:BB"` cannot be parsed as six
colon-separated hex byte pairs, yet MAC resolution yields the two bytes
`[0xAA, 0xBB]` and `set_power` (with `newPowerLightCommand`) attempts a
MAC-based `0x8D` write built from them instead of the legacy frame. -/
theorem mac_not_six_pairs_cex :
    get_mac_bytes (some ("AA:BB".toList)) [] = some [0xAA, 0xBB] ∧
    (set_power { newPowerLightCommand := true } (some ("AA:BB".toList)) []
        (fun _ => true) initialState true).2
      = [[0x78, 0x8D, 0x08, 0xAA, 0xBB, 0x81, 0x01, 0xF4]] := by
  exact ⟨by decide, by decide⟩

/-! ## Claims about set_cct (C5, C8, C9) -/

/-- `pyRound` never exceeds its argument by more than half a unit. -/
theorem pyRound_le_add_half (q : ℚ) : (pyRound q : ℚ) ≤ q + 1 / 2 := by
  have h1 : ((⌊q⌋ : ℤ) : ℚ) ≤ q := Int.floor_le q
  have h2 : q < ((⌊q⌋ : ℤ) : ℚ) + 1 := Int.lt_floor_add_one q
  simp only [pyRound]
  split_ifs with hf1 hf2 hf3
  · linarith
  · push_cast; linarith
  · linarith
  · push_cast
    have he : q - ((⌊q⌋ : ℤ) : ℚ) = 1 / 2 :=
      le_antisymm (not_lt.mp hf2) (not_lt.mp hf1)
    linarith

/-- `pyRound` never undershoots its argument by more than half a unit. -/
theorem sub_half_le_pyRound (q : ℚ) : q - 1 / 2 ≤ (pyRound q : ℚ) := by
  have h1 : ((⌊q⌋ : ℤ) : ℚ) ≤ q := Int.floor_le q
  have h2 : q < ((⌊q⌋ : ℤ) : ℚ) + 1 := Int.lt_floor_add_one q
  simp only [pyRound]
  split_ifs with hf1 hf2 hf3
  · linarith
  · push_cast; linarith
  · have he : q - ((⌊q⌋ : ℤ) : ℚ) = 1 / 2 :=
      le_antisymm (not_lt.mp hf2) (not_lt.mp hf1)
    linarith
  · push_cast; linarith

/-- `pyRound` is monotone (any tie-breaking within ±1/2 is). -/
theorem pyRound_mono {q r : ℚ} (h : q ≤ r) : pyRound q ≤ pyRound r := by
  by_contra hlt
  push_neg at hlt
  have h1 : (pyRound r : ℚ) + 1 ≤ (pyRound q : ℚ) := by
    exact_mod_cast Int.add_one_le_iff.mpr hlt
  have h2 := pyRound_le_add_half q
  have h3 := sub_half_le_pyRound r
  have hqr : r ≤ q := by linarith
  have heq : q = r := le_antisymm h hqr
  subst heq
  linarith

/-- C5: for a capability range with `min ≤ max`, the Kelvin → device
CCT conversion of `set_cct` is monotone non-decreasing in the Kelvin
argument, and `set_cct` (basic path, accepting transport) stores exactly
that converted, clamped value. -/
theorem set_cct_kelvin_monotone (caps : Capabilities)
    (ma : Option (List Char)) (addr : List Char) (st : DeviceState)
    (br : Option Int) (g minc maxc k1 k2 : Int)
    (hr : caps.cctRange = some (minc, maxc))
    (hgm : caps.supportCCTGM = false)
    (hle : minc ≤ maxc) (hk : k1 ≤ k2) :
    device_cct_of minc maxc k1 ≤ device_cct_of minc maxc k2 ∧
    (set_cct caps ma addr (fun _ => true) st k1 br g).1 =
      .ok { st with brightness := max 0 (min 100 (br.getD st.brightness)),
                    cct := device_cct_of minc maxc k1 } := by
  constructor
  · have hmm : ((minc : ℤ) : ℚ) ≤ ((maxc : ℤ) : ℚ) := by exact_mod_cast hle
    have hk' : ((k1 : ℤ) : ℚ) ≤ ((k2 : ℤ) : ℚ) := by exact_mod_cast hk
    have haff : (minc : ℚ) + ((k1 : ℚ) - 2700) * ((maxc : ℚ) - (minc : ℚ)) / (6500 - 2700)
        ≤ (minc : ℚ) + ((k2 : ℚ) - 2700) * ((maxc : ℚ) - (minc : ℚ)) / (6500 - 2700) := by
      have hmul : ((k1 : ℚ) - 2700) * ((maxc : ℚ) - (minc : ℚ))
          ≤ ((k2 : ℚ) - 2700) * ((maxc : ℚ) - (minc : ℚ)) :=
        mul_le_mul_of_nonneg_right (by linarith) (by linarith)
      have hdiv : ((k1 : ℚ) - 2700) * ((maxc : ℚ) - (minc : ℚ)) / (6500 - 2700)
          ≤ ((k2 : ℚ) - 2700) * ((maxc : ℚ) - (minc : ℚ)) / (6500 - 2700) := by
        exact div_le_div_of_nonneg_right hmul (by norm_num)
      linarith
    unfold device_cct_of
    exact max_le_max le_rfl (min_le_min le_rfl (pyRound_mono haff))
  · simp [set_cct, hr, hgm]

/-- C5 witness: with range 32..56, device CCT at 3000 K is at most the
one at 5000 K, and the fallback-path `set_cct` stores the converted
value. -/
theorem set_cct_kelvin_monotone_witness :
    device_cct_of 32 56 3000 ≤ device_cct_of 32 56 5000 ∧
    (set_cct { cctRange := some (32, 56) } none [] (fun _ => true)
        initialState 3000 (some 80) 0).1 =
      .ok { initialState with
              brightness := max 0 (min 100 ((some 80).getD initialState.brightness)),
              cct := device_cct_of 32 56 3000 } :=
  set_cct_kelvin_monotone { cctRange := some (32, 56) } none [] initialState
    (some 80) 0 32 56 3000 5000 rfl rfl (by decide) (by decide)

/-- C8: with `supportCCTGM`, a resolvable MAC and an accepting
transport, `set_cct` with external gm `g ∈ -50..50` stores `g + 50`
internally, and the `gm` accessor reads back exactly `g` (so external 0
is internal 50). -/
theorem cct_gm_roundtrip (caps : Capabilities) (ma : Option (List Char))
    (addr : List Char) (t : List Int → Bool) (st : DeviceState)
    (kelvin : Int) (br : Option Int) (g : Int) (mb : List Int)
    (hgm : caps.supportCCTGM = true)
    (hm : get_mac_bytes ma addr = some mb) (hne : mb ≠ [])
    (ht : t (mkFrame ([0x90, 0x0C] ++ mb ++
        [0x87, max 0 (min 100 (br.getD st.brightness)),
         device_cct_of (caps.cctRange.getD (32, 56)).1
           (caps.cctRange.getD (32, 56)).2 kelvin,
         max (-50) (min 50 g) + 50, 0x04])) = true)
    (hg1 : -50 ≤ g) (hg2 : g ≤ 50) :
    ((set_cct caps ma addr t st kelvin br g).1.map DeviceState.gm)
        = .ok (g + 50) ∧
    ((set_cct caps ma addr t st kelvin br g).1.map gm_property) = .ok g := by
  have htr2 : macTruthy (some mb) = true := by simpa [macTruthy] using hne
  have hgv : max (-50) (min 50 g) + 50 = g + 50 := by omega
  simp only [List.cons_append, List.nil_append] at ht
  constructor
  · simp [set_cct, hgm, hm, htr2, ht, Except.map]
    omega
  · simp [set_cct, hgm, hm, htr2, ht, Except.map, gm_property]
    omega

/-- C8 witness: external gm 0 maps to internal 50 and reads back as 0. -/
theorem cct_gm_roundtrip_witness :
    ((set_cct capsAllOn (some ("11:22:33:44:55:66".toList)) [] (fun _ => true)
        initialState 4000 (some 80) 0).1.map DeviceState.gm)
      = .ok (0 + 50) ∧
    ((set_cct capsAllOn (some ("11:22:33:44:55:66".toList)) [] (fun _ => true)
        initialState 4000 (some 80) 0).1.map gm_property) = .ok 0 :=
  cct_gm_roundtrip capsAllOn (some ("11:22:33:44:55:66".toList)) []
    (fun _ => true) initialState 4000 (some 80) 0
    [0x11, 0x22, 0x33, 0x44, 0x55, 0x66]
    rfl (by decide) (by decide) (by decide) (by decide) (by decide)

/-- C9: whenever `set_cct` takes the basic fallback path (GM capability
or MAC unavailable, or the GM-aware frame rejected) and the basic frame
`[0x87, 0x02, brightness, deviceCct]` succeeds, the stored `gm` is
unchanged while `brightness` and `cct` are updated; the last attempted
frame is the basic one. -/
theorem cct_fallback_leaves_gm (caps : Capabilities)
    (ma : Option (List Char)) (addr : List Char) (t : List Int → Bool)
    (st : DeviceState) (kelvin : Int) (br : Option Int) (g : Int)
    (hfb : (caps.supportCCTGM && macTruthy (get_mac_bytes ma addr)) = false
        ∨ t (mkFrame ([0x90, 0x0C] ++ (get_mac_bytes ma addr).getD [] ++
            [0x87, max 0 (min 100 (br.getD st.brightness)),
             device_cct_of (caps.cctRange.getD (32, 56)).1
               (caps.cctRange.getD (32, 56)).2 kelvin,
             max (-50) (min 50 g) + 50, 0x04])) = false)
    (hb : t (mkFrame [0x87, 0x02, max 0 (min 100 (br.getD st.brightness)),
        device_cct_of (caps.cctRange.getD (32, 56)).1
          (caps.cctRange.getD (32, 56)).2 kelvin]) = true) :
    (set_cct caps ma addr t st kelvin br g).1 =
      .ok { st with brightness := max 0 (min 100 (br.getD st.brightness)),
                    cct := device_cct_of (caps.cctRange.getD (32, 56)).1
                            (caps.cctRange.getD (32, 56)).2 kelvin } ∧
    ((set_cct caps ma addr t st kelvin br g).1.map DeviceState.gm)
        = .ok st.gm ∧
    (set_cct caps ma addr t st kelvin br g).2.getLast?
        = some (mkFrame [0x87, 0x02, max 0 (min 100 (br.getD st.brightness)),
            device_cct_of (caps.cctRange.getD (32, 56)).1
              (caps.cctRange.getD (32, 56)).2 kelvin]) := by
  by_cases hguard : (caps.supportCCTGM && macTruthy (get_mac_bytes ma addr)) = true
  · have ht2 : t (mkFrame ([0x90, 0x0C] ++ (get_mac_bytes ma addr).getD [] ++
        [0x87, max 0 (min 100 (br.getD st.brightness)),
         device_cct_of (caps.cctRange.getD (32, 56)).1
           (caps.cctRange.getD (32, 56)).2 kelvin,
         max (-50) (min 50 g) + 50, 0x04])) = false := by
      rcases hfb with hfb | hfb
      · rw [hguard] at hfb; exact absurd hfb (by simp)
      · exact hfb
    have hs : caps.supportCCTGM = true := by
      rcases Bool.and_eq_true_iff.mp hguard with ⟨h1, _⟩; exact h1
    cases hmb : get_mac_bytes ma addr with
    | none =>
      rw [hmb] at hguard
      simp [macTruthy] at hguard
    | some mb =>
      rw [hmb] at hguard ht2
      have htr2 : macTruthy (some mb) = true := (Bool.and_eq_true_iff.mp hguard).2
      simp only [Option.getD_some, List.cons_append, List.nil_append] at ht2
      refine ⟨?_, ?_, ?_⟩ <;>
        simp [set_cct, hs, hmb, htr2, ht2, hb, Except.map]
  · have hg2 : (caps.supportCCTGM && macTruthy (get_mac_bytes ma addr)) = false :=
      Bool.not_eq_true _ ▸ (Bool.of_not_eq_true hguard)
    refine ⟨?_, ?_, ?_⟩ <;>
      simp [set_cct, hg2, hb, Except.map]

/-- C9 witness: a GM-capable device whose transport rejects the `0x90`
GM-aware frame but accepts the basic one: gm stays at its prior value
(7), brightness and cct are updated, the last frame is the basic CCT
command. -/
theorem cct_fallback_leaves_gm_witness :
    (set_cct capsAllOn (some ("11:22:33:44:55:66".toList)) []
        (fun f => f.getD 1 0 != 0x90) { initialState with gm := 7 }
        4000 (some 80) 3).1 =
      .ok { { initialState with gm := 7 } with
              brightness := max 0 (min 100
                ((some 80).getD ({ initialState with gm := 7 }).brightness)),
              cct := device_cct_of (capsAllOn.cctRange.getD (32, 56)).1
                      (capsAllOn.cctRange.getD (32, 56)).2 4000 } ∧
    ((set_cct capsAllOn (some ("11:22:33:44:55:66".toList)) []
        (fun f => f.getD 1 0 != 0x90) { initialState with gm := 7 }
        4000 (some 80) 3).1.map DeviceState.gm)
      = .ok ({ initialState with gm := 7 }).gm ∧
    (set_cct capsAllOn (some ("11:22:33:44:55:66".toList)) []
        (fun f => f.getD 1 0 != 0x90) { initialState with gm := 7 }
        4000 (some 80) 3).2.getLast?
      = some (mkFrame [0x87, 0x02, max 0 (min 100
            ((some 80).getD ({ initialState with gm := 7 }).brightness)),
          device_cct_of (capsAllOn.cctRange.getD (32, 56)).1
            (capsAllOn.cctRange.getD (32, 56)).2 4000]) :=
  cct_fallback_leaves_gm capsAllOn (some ("11:22:33:44:55:66".toList)) []
    (fun f => f.getD 1 0 != 0x90) { initialState with gm := 7 }
    4000 (some 80) 3 (Or.inr (by decide)) (by decide)

/-! ## Claims about the scene encoder (C6, C7) -/

/-- The effect ids present in `ADVANCED_SCENE_PARAMS` (1..17). -/
def knownEffectIds : List Nat :=
  [1, 2, 3, 4, 5, 6, 7, 8, 9, 10, 11, 12, 13, 14, 15, 16, 17]

/-- The per-family second payload byte claimed by the spec (0x0E for
CCT-style, Cop-Car/Party and CCT-Loop, 0x0F for HUE-style, Explosion,
Welding, INT-Loop and Firework, 0x10 for Candlelight, 0x11 for
HUE-Loop). -/
def familyLengthByte (eid : Nat) : Nat :=
  if eid ∈ [EFFECT_LIGHTNING, EFFECT_PAPARAZZI, EFFECT_DEFECTIVE_BULB,
      EFFECT_CCT_FLASH, EFFECT_CCT_PULSE, EFFECT_TV_SCREEN,
      EFFECT_COP_CAR, EFFECT_PARTY, EFFECT_CCT_LOOP] then 0x0E
  else if eid ∈ [EFFECT_HUE_FLASH, EFFECT_HUE_PULSE, EFFECT_EXPLOSION,
      EFFECT_WELDING, EFFECT_INT_LOOP, EFFECT_FIREWORK] then 0x0F
  else if eid = EFFECT_CANDLELIGHT then 0x10
  else if eid = EFFECT_HUE_LOOP then 0x11
  else 0

/-- Any list of length 6 is a six-element literal. -/
theorem list_length_six {α : Type} (l : List α) (h : l.length = 6) :
    ∃ a b c d e f, l = [a, b, c, d, e, f] := by
  match l, h with
  | [a, b, c, d, e, f], _ => exact ⟨a, b, c, d, e, f, rfl⟩

/-- C6 (amended): for every effect id in the table and a 6-byte MAC, the
command is `[0x91, L, mac×6, 0x8B, effectId, …params…, pad]` with `L`
exactly the per-family value of the table (0x0E/0x0F/0x10/0x11); the
byte-count of everything following `L` through the trailing pad is
`L - 1` for every family except HUE-Loop, where it is `L - 2` (the byte
does not equal that count, as the original claim stated). -/
theorem scene_command_layout (eid : Nat) (mac : List Int) (br : Int)
    (params : String → Option Int)
    (hid : eid ∈ knownEffectIds) (hm : mac.length = 6) :
    ((build_advanced_scene_command eid mac br params).map (List.take 2))
        = some [0x91, (familyLengthByte eid : Int)] ∧
    ((build_advanced_scene_command eid mac br params).map
        (fun c => (c.drop 2).take 8)) = some (mac ++ [0x8B, (eid : Int)]) ∧
    ((build_advanced_scene_command eid mac br params).map
        (fun c => (c.drop 2).length))
        = some (if eid = EFFECT_HUE_LOOP then familyLengthByte eid - 2
                else familyLengthByte eid - 1) := by
  obtain ⟨a, b, c, d, e, f, rfl⟩ := list_length_six mac hm
  unfold knownEffectIds at hid
  fin_cases hid <;> exact ⟨rfl, rfl, rfl⟩

/-- C6 witness: the HUE-Loop command (the family whose declared byte
0x11 exceeds the following byte-count by two). -/
theorem scene_command_layout_witness :
    ((build_advanced_scene_command 12 [1, 2, 3, 4, 5, 6] 7 (fun _ => none)).map
        (List.take 2)) = some [0x91, (familyLengthByte 12 : Int)] ∧
    ((build_advanced_scene_command 12 [1, 2, 3, 4, 5, 6] 7 (fun _ => none)).map
        (fun c => (c.drop 2).take 8))
        = some ([1, 2, 3, 4, 5, 6] ++ [0x8B, ((12 : Nat) : Int)]) ∧
    ((build_advanced_scene_command 12 [1, 2, 3, 4, 5, 6] 7 (fun _ => none)).map
        (fun c => (c.drop 2).length))
        = some (if 12 = EFFECT_HUE_LOOP then familyLengthByte 12 - 2
                else familyLengthByte 12 - 1) :=
  scene_command_layout 12 [1, 2, 3, 4, 5, 6] 7 (fun _ => none) (by decide) rfl

/-- C6 counterexample: for Lightning the second payload byte is 0x0E,
but the byte-count of everything following it through the trailing pad
is 13, not 0x0E — the declared byte is not that count (it additionally
counts the checksum appended at send time). -/
theorem scene_length_byte_cex :
    build_advanced_scene_command EFFECT_LIGHTNING [0, 0, 0, 0, 0, 0] 100
        (fun _ => none)
      = some [0x91, 0x0E, 0, 0, 0, 0, 0, 0, 0x8B, 1, 100, 50, 50, 5, 0] ∧
    (([0x91, 0x0E, 0, 0, 0, 0, 0, 0, 0x8B, 1, 100, 50, 50, 5, 0] : List Int).drop 2).length
        = 13 ∧
    (13 : Nat) ≠ 0x0E :=
  ⟨rfl, rfl, by decide⟩

/-- The parameter-class clamping table as the spec states it
(brightness-class 0..100, cct-class 27..65, gm 0..100, hue-class 0..360,
saturation 0..100, speed/sparks 1..10, color_mode 0..4). -/
def specParamClamp (param_name : String) (value : Int) : Int :=
  if param_name ∈ ["brightness", "brightness_low", "brightness_high"] then
    max 0 (min 100 value)
  else if param_name ∈ ["cct", "cct_low", "cct_high"] then
    max 27 (min 65 value)
  else if param_name = "gm" then
    max 0 (min 100 value)
  else if param_name ∈ ["hue", "hue_low", "hue_high"] then
    max 0 (min 360 value)
  else if param_name = "saturation" then
    max 0 (min 100 value)
  else if param_name ∈ ["speed", "sparks"] then
    max 1 (min 10 value)
  else if param_name = "color_mode" then
    max 0 (min 4 value)
  else
    value

/-- C7: validation returns exactly the parameters that are declared for
the effect and present in the input, each clamped to the spec's class
range; `speed 99 ↦ 10`, `speed -5 ↦ 1` for Explosion, and an unknown
effect id yields the empty parameter set. -/
theorem validate_clamps_declared_params :
    (∀ eid params, validate_scene_parameters eid params =
      match sceneSpec eid with
      | none => []
      | some spec => spec.params.filterMap
          (fun n => (params n).map (fun v => (n, specParamClamp n v)))) ∧
    validate_scene_parameters EFFECT_EXPLOSION
      (fun n => if n = "speed" then some 99 else none) = [("speed", 10)] ∧
    validate_scene_parameters EFFECT_EXPLOSION
      (fun n => if n = "speed" then some (-5) else none) = [("speed", 1)] ∧
    validate_scene_parameters 99 (fun _ => some 5) = [] :=
  ⟨fun _ _ => rfl, rfl, rfl, rfl⟩

end Neewer
